import Mathlib

/-!
Shallow embedding of the prompt-construction and continuity-management engine
of the comic authoring tool (src/types.ts, src/constants.ts, src/App.tsx,
src/components/PageCreator.tsx, src/services/geminiService.ts), together with
theorems settling the frozen claims about it.
-/

namespace Comic

/-- src/types.ts `Character`: id, display name, reference image URL, core prompt. -/
structure Character where
  characterId : String
  name : String
  referenceImageUrl : String
  corePrompt : String
deriving Repr, DecidableEq

/-- src/types.ts `Asset`: structurally identical to `Character` but keyed by `assetId`. -/
structure Asset where
  assetId : String
  name : String
  referenceImageUrl : String
  corePrompt : String
deriving Repr, DecidableEq

/-- src/types.ts `Relationship`: a directed pair of entity ids with a description. -/
structure Relationship where
  id : String
  entity1Id : String
  entity2Id : String
  description : String
deriving Repr, DecidableEq

/-- src/types.ts `Scene`. The optional `characterIds`/`assetIds` arrays are modelled
as plain lists (the source treats `undefined` as `[]` via `|| []` at every use). -/
structure Scene where
  sceneId : String
  description : String
  cameraShot : String
  characterIds : List String
  assetIds : List String
deriving Repr, DecidableEq

/-- src/types.ts `ComicFormat`. -/
inductive ComicFormat where
  | webtoon
  | page
deriving Repr, DecidableEq

/-- src/types.ts `PageMode`. -/
inductive PageMode where
  | single
  | spread
deriving Repr, DecidableEq

/-- PageCreator's `colorMode` state: `'color' | 'bw'`. -/
inductive ColorMode where
  | color
  | bw
deriving Repr, DecidableEq

/-- src/types.ts `Project` (the `style` enum value is carried as its prompt string,
which is the only way the engine reads it). -/
structure Project where
  projectId : String
  projectName : String
  format : ComicFormat
  stylePrompt : String
deriving Repr, DecidableEq

/-- src/types.ts `LayoutTemplate`, dropping the CSS preview fields that only feed
React rendering. -/
structure LayoutTemplate where
  id : String
  name : String
  panelCount : Nat
  description : String
deriving Repr, DecidableEq

/-- src/constants.ts `CAMERA_SHOTS`: the enumerated camera-shot vocabulary. -/
def CAMERA_SHOTS : List String :=
  [ "建场镜头", "全景", "中远景 (牛仔镜头)", "中景", "特写镜头", "大特写",
    "插入镜头 (特写道具)",
    "主观视角", "过肩镜头", "仰拍", "虫瞰视角 (极端仰拍)", "俯拍",
    "鸟瞰视角 (极端俯拍)", "斜角镜头 (荷兰角)",
    "反应镜头", "动态动作分镜", "序列镜头 (分解动作)", "突破画框", "无声分镜" ]

/-! ## Entity Registry deletions and the Scene cleanup pass (claim C2)

src/App.tsx `handleDeleteCharacter` / `handleDeleteAsset` plus the
PageCreator cleanup effect (src/components/PageCreator.tsx lines 36-48),
which re-filters every scene's assignment lists against the current
character/asset props whenever they change. -/

/-- The state the deletion claims quantify over: App.tsx's registry state plus
PageCreator's scene list. -/
structure AppState where
  characters : List Character
  assets : List Asset
  relationships : List Relationship
  scenes : List Scene
deriving Repr, DecidableEq

/-- src/App.tsx `handleDeleteCharacter`: drop the character and every relationship
with it as an endpoint. -/
def deleteCharacter (characterId : String) (s : AppState) : AppState :=
  { s with
    characters := s.characters.filter (fun c => c.characterId != characterId)
    relationships := s.relationships.filter
      (fun r => r.entity1Id != characterId && r.entity2Id != characterId) }

/-- src/App.tsx `handleDeleteAsset`: drop the asset and every relationship
with it as an endpoint. -/
def deleteAsset (assetId : String) (s : AppState) : AppState :=
  { s with
    assets := s.assets.filter (fun a => a.assetId != assetId)
    relationships := s.relationships.filter
      (fun r => r.entity1Id != assetId && r.entity2Id != assetId) }

/-- src/components/PageCreator.tsx lines 36-48 (cleanup effect): every scene's
`characterIds`/`assetIds` are re-filtered to ids that still resolve in the
current registry props. -/
def cleanupScenes (s : AppState) : AppState :=
  { s with
    scenes := s.scenes.map (fun sc =>
      { sc with
        characterIds := sc.characterIds.filter
          (fun id => s.characters.any (fun c => c.characterId == id))
        assetIds := sc.assetIds.filter
          (fun id => s.assets.any (fun a => a.assetId == id)) }) }

/-- Character deletion as observed after React re-runs the cleanup effect with the
new props: App.tsx delete followed by the PageCreator scene cleanup pass. -/
def deleteCharacterFull (characterId : String) (s : AppState) : AppState :=
  cleanupScenes (deleteCharacter characterId s)

/-- Asset deletion followed by the scene cleanup pass. -/
def deleteAssetFull (assetId : String) (s : AppState) : AppState :=
  cleanupScenes (deleteAsset assetId s)

/-- Claim C2: after `deleteCharacter(id)` completes, including the scene-cleanup
pass, no relationship has `id` as an endpoint and no scene's `characterIds` or
`assetIds` list contains `id`; symmetrically for `deleteAsset`. The hypotheses
record that `id` is an id of the deleted kind only, i.e. it does not collide with
an id of the other kind (the cleanup pass keeps an id exactly when it resolves in
the other kind's registry, so a cross-kind collision would defeat the purge). -/
theorem delete_referential_integrity (s : AppState) (idC idA : String)
    (hA : ∀ a ∈ s.assets, a.assetId ≠ idC)
    (hC : ∀ c ∈ s.characters, c.characterId ≠ idA) :
    ((∀ r ∈ (deleteCharacterFull idC s).relationships, r.entity1Id ≠ idC ∧ r.entity2Id ≠ idC) ∧
      (∀ sc ∈ (deleteCharacterFull idC s).scenes, idC ∉ sc.characterIds ∧ idC ∉ sc.assetIds)) ∧
    ((∀ r ∈ (deleteAssetFull idA s).relationships, r.entity1Id ≠ idA ∧ r.entity2Id ≠ idA) ∧
      (∀ sc ∈ (deleteAssetFull idA s).scenes, idA ∉ sc.characterIds ∧ idA ∉ sc.assetIds)) := by
  constructor
  · constructor
    · intro r hr
      simp only [deleteCharacterFull, cleanupScenes, deleteCharacter, List.mem_filter,
        Bool.and_eq_true, bne_iff_ne, ne_eq] at hr
      exact ⟨hr.2.1, hr.2.2⟩
    · intro sc hsc
      simp only [deleteCharacterFull, cleanupScenes, deleteCharacter, List.mem_map] at hsc
      obtain ⟨sc₀, _, rfl⟩ := hsc
      constructor
      · intro hmem
        simp only [List.mem_filter, List.any_eq_true, beq_iff_eq, Bool.and_eq_true,
          bne_iff_ne, ne_eq] at hmem
        obtain ⟨-, c, ⟨-, hne⟩, hceq⟩ := hmem
        exact hne hceq
      · intro hmem
        simp only [List.mem_filter, List.any_eq_true, beq_iff_eq] at hmem
        obtain ⟨-, a, ha', haeq⟩ := hmem
        exact hA a ha' haeq
  · constructor
    · intro r hr
      simp only [deleteAssetFull, cleanupScenes, deleteAsset, List.mem_filter,
        Bool.and_eq_true, bne_iff_ne, ne_eq] at hr
      exact ⟨hr.2.1, hr.2.2⟩
    · intro sc hsc
      simp only [deleteAssetFull, cleanupScenes, deleteAsset, List.mem_map] at hsc
      obtain ⟨sc₀, _, rfl⟩ := hsc
      constructor
      · intro hmem
        simp only [List.mem_filter, List.any_eq_true, beq_iff_eq] at hmem
        obtain ⟨-, c, hc', hceq⟩ := hmem
        exact hC c hc' hceq
      · intro hmem
        simp only [List.mem_filter, List.any_eq_true, beq_iff_eq, Bool.and_eq_true,
          bne_iff_ne, ne_eq] at hmem
        obtain ⟨-, a, ⟨-, hne⟩, haeq⟩ := hmem
        exact hne haeq

/-- A concrete registry exercising `delete_referential_integrity`: one character,
one asset, one relationship between them, one scene assigning both. -/
def sampleState : AppState :=
  { characters := [{ characterId := "char-1", name := "Aria",
                     referenceImageUrl := "u1", corePrompt := "knight" }]
    assets := [{ assetId := "asset-1", name := "Sword",
                 referenceImageUrl := "u2", corePrompt := "blade" }]
    relationships := [{ id := "rel-1", entity1Id := "char-1", entity2Id := "asset-1",
                        description := "wields" }]
    scenes := [{ sceneId := "scene-0", description := "Aria draws her sword",
                 cameraShot := "特写镜头", characterIds := ["char-1"],
                 assetIds := ["asset-1"] }] }

theorem delete_referential_integrity_witness :
    ((∀ r ∈ (deleteCharacterFull "char-1" sampleState).relationships,
        r.entity1Id ≠ "char-1" ∧ r.entity2Id ≠ "char-1") ∧
      (∀ sc ∈ (deleteCharacterFull "char-1" sampleState).scenes,
        "char-1" ∉ sc.characterIds ∧ "char-1" ∉ sc.assetIds)) ∧
    ((∀ r ∈ (deleteAssetFull "asset-1" sampleState).relationships,
        r.entity1Id ≠ "asset-1" ∧ r.entity2Id ≠ "asset-1") ∧
      (∀ sc ∈ (deleteAssetFull "asset-1" sampleState).scenes,
        "asset-1" ∉ sc.characterIds ∧ "asset-1" ∉ sc.assetIds)) :=
  delete_referential_integrity sampleState "char-1" "asset-1" (by decide) (by decide)

/-! ## Scene Set resize (claim C8)

src/components/PageCreator.tsx lines 68-81: whenever the resolved panel count
changes, the scene list is rebuilt as
`Array.from({length: panelCount}, (_, i) => currentScenes[i] || blank(i))`.
The blank scene's id interpolates `Date.now()`; that clock reading is passed in
here as the explicit parameter `now`. -/

/-- The fresh blank scene created for slot `i` (PageCreator resize effect):
empty description, first enumerated camera shot, empty assignment lists. -/
def blankScene (now i : Nat) : Scene :=
  { sceneId := s!"scene-{now}-{i}"
    description := ""
    cameraShot := CAMERA_SHOTS.headD ""
    characterIds := []
    assetIds := [] }

/-- PageCreator resize effect: slot `i` keeps `currentScenes[i]` when it exists and
is otherwise filled with a fresh blank scene. -/
def resizeScenes (now n : Nat) (scenes : List Scene) : List Scene :=
  (List.range n).map (fun i => (scenes[i]?).getD (blankScene now i))

theorem resizeScenes_length (now n : Nat) (scenes : List Scene) :
    (resizeScenes now n scenes).length = n := by
  simp [resizeScenes]

theorem resizeScenes_getElem? (now n : Nat) (scenes : List Scene) (i : Nat) :
    (resizeScenes now n scenes)[i]? =
      if i < n then some ((scenes[i]?).getD (blankScene now i)) else none := by
  by_cases h : i < n
  · simp [resizeScenes, List.getElem?_map, List.getElem?_range h, h]
  · simp only [resizeScenes]
    rw [List.getElem?_eq_none]
    · simp [h]
    · simpa using Nat.le_of_not_lt h

/-- Claim C8: resizing the Scene Set to `n` and then to `m > n` leaves every slot
of `scenes[0..n)` that existed before byte-identical to its prior state, and every
newly created slot (either beyond the original length or beyond `n`) is a blank
scene: empty description, camera shot equal to the first enumerated value, and
empty assignment lists. The two resizes may observe different `Date.now()`
readings (`now₁`, `now₂`). -/
theorem resize_preserves_prefix_and_blanks (scenes : List Scene) (n m now₁ now₂ : Nat)
    (hnm : n < m) :
    (resizeScenes now₂ m (resizeScenes now₁ n scenes)).length = m ∧
    (∀ i, i < n → i < scenes.length →
      (resizeScenes now₂ m (resizeScenes now₁ n scenes))[i]? = scenes[i]?) ∧
    (∀ i, i < m → (n ≤ i ∨ scenes.length ≤ i) →
      ∃ sc, (resizeScenes now₂ m (resizeScenes now₁ n scenes))[i]? = some sc ∧
        sc.description = "" ∧ sc.cameraShot = CAMERA_SHOTS.headD "" ∧
        sc.characterIds = [] ∧ sc.assetIds = []) := by
  refine ⟨resizeScenes_length .., ?_, ?_⟩
  · intro i hin hilen
    rw [resizeScenes_getElem?, if_pos (hin.trans hnm), resizeScenes_getElem?, if_pos hin]
    rw [List.getElem?_eq_getElem hilen]
    rfl
  · intro i him hnew
    rw [resizeScenes_getElem?, if_pos him]
    rcases Nat.lt_or_ge i n with hin | hni
    · rw [resizeScenes_getElem?, if_pos hin]
      have hlen : scenes.length ≤ i := hnew.resolve_left (fun h => absurd hin (Nat.not_lt.mpr h))
      rw [List.getElem?_eq_none hlen]
      exact ⟨blankScene now₁ i, rfl, rfl, rfl, rfl, rfl⟩
    · rw [resizeScenes_getElem?, if_neg (Nat.not_lt.mpr hni)]
      exact ⟨blankScene now₂ i, rfl, rfl, rfl, rfl, rfl⟩

theorem resize_preserves_prefix_and_blanks_witness :
    (2 : Nat) < 4 ∧
    ((resizeScenes 7 4 (resizeScenes 5 2 sampleState.scenes)).length = 4 ∧
    (∀ i, i < 2 → i < sampleState.scenes.length →
      (resizeScenes 7 4 (resizeScenes 5 2 sampleState.scenes))[i]? = sampleState.scenes[i]?) ∧
    (∀ i, i < 4 → (2 ≤ i ∨ sampleState.scenes.length ≤ i) →
      ∃ sc, (resizeScenes 7 4 (resizeScenes 5 2 sampleState.scenes))[i]? = some sc ∧
        sc.description = "" ∧ sc.cameraShot = CAMERA_SHOTS.headD "" ∧
        sc.characterIds = [] ∧ sc.assetIds = [])) :=
  ⟨by decide, resize_preserves_prefix_and_blanks sampleState.scenes 2 4 5 7 (by decide)⟩

/-! ## Image synthesis with retry and placeholder (claim C9)

src/services/geminiService.ts `generateComicPanels` (lines 398-468): two
candidate generations run in parallel; each candidate makes one backend attempt
and, if it fails, exactly one retry; if both fail, the candidate slot is filled
with a placeholder image. The backend (`generateAndValidate`) is modelled by its
observable outcome per call: `some dataUrl` when the response carried an inline
image part, `none` when the call threw or no image part was found. -/

/-- src/services/geminiService.ts `getPlaceholderImage`: draws a canvas with the
text 'Generation Failed' and returns it as a data URL. The pixel content is
outside the embedding; the result is modelled as a marker string determined by
the requested dimensions. -/
def getPlaceholderImage (width height : Nat) : String :=
  s!"placeholder-generation-failed-{width}x{height}"

/-- `attemptGeneration`: return the first attempt's image; on failure retry once;
on a second failure return the 1024x576 placeholder. -/
def attemptGeneration (first retry : Option String) : String :=
  match first with
  | some img => img
  | none =>
    match retry with
    | some img => img
    | none => getPlaceholderImage 1024 576

/-- Number of backend calls `attemptGeneration` performs: one when the first
attempt succeeds, two otherwise (the single retry). -/
def attemptCallCount (first : Option String) : Nat :=
  match first with
  | some _ => 1
  | none => 2

/-- `generateComicPanels`: both candidates' results, joined with
`Promise.all` — always an array of exactly two images. `c₁ₐ, c₁ᵣ` are the first
candidate's attempt/retry outcomes, `c₂ₐ, c₂ᵣ` the second's. -/
def generateComicPanels (c₁ₐ c₁ᵣ c₂ₐ c₂ᵣ : Option String) : List String :=
  [attemptGeneration c₁ₐ c₁ᵣ, attemptGeneration c₂ₐ c₂ᵣ]

/-- Claim C9: every call runs exactly two candidate generations and returns an
array of exactly two images (no exception propagates — the function is total and
every failure path lands on the placeholder); a successful attempt is used
directly and costs one backend call; a failed attempt is retried exactly once
(two backend calls); a candidate whose attempt and retry both fail yields the
placeholder image. -/
theorem generateComicPanels_retry_placeholder (c₁ₐ c₁ᵣ c₂ₐ c₂ᵣ : Option String) :
    (generateComicPanels c₁ₐ c₁ᵣ c₂ₐ c₂ᵣ).length = 2 ∧
    generateComicPanels c₁ₐ c₁ᵣ c₂ₐ c₂ᵣ =
      [attemptGeneration c₁ₐ c₁ᵣ, attemptGeneration c₂ₐ c₂ᵣ] ∧
    (∀ img, c₁ₐ = some img → attemptGeneration c₁ₐ c₁ᵣ = img ∧ attemptCallCount c₁ₐ = 1) ∧
    (∀ img, c₁ₐ = none → c₁ᵣ = some img →
      attemptGeneration c₁ₐ c₁ᵣ = img ∧ attemptCallCount c₁ₐ = 2) ∧
    (c₁ₐ = none → c₁ᵣ = none →
      attemptGeneration c₁ₐ c₁ᵣ = getPlaceholderImage 1024 576 ∧ attemptCallCount c₁ₐ = 2) ∧
    (c₂ₐ = none → c₂ᵣ = none →
      attemptGeneration c₂ₐ c₂ᵣ = getPlaceholderImage 1024 576) := by
  refine ⟨rfl, rfl, ?_, ?_, ?_, ?_⟩
  · rintro img rfl
    exact ⟨rfl, rfl⟩
  · rintro img rfl rfl
    exact ⟨rfl, rfl⟩
  · rintro rfl rfl
    exact ⟨rfl, rfl⟩
  · rintro rfl rfl
    rfl

/-- Scenario of spec §8 end-to-end 5: candidate one succeeds, candidate two fails
its attempt and its retry; the result is two entries, one real image, one
placeholder. -/
theorem generateComicPanels_retry_placeholder_witness :
    (generateComicPanels (some "data:img-ok") none none none).length = 2 ∧
    generateComicPanels (some "data:img-ok") none none none =
      [attemptGeneration (some "data:img-ok") none, attemptGeneration none none] ∧
    (∀ img, some "data:img-ok" = some img →
      attemptGeneration (some "data:img-ok") none = img ∧
      attemptCallCount (some "data:img-ok") = 1) ∧
    (∀ img, (some "data:img-ok" : Option String) = none → (none : Option String) = some img →
      attemptGeneration (some "data:img-ok") none = img ∧
      attemptCallCount (some "data:img-ok") = 2) ∧
    ((some "data:img-ok" : Option String) = none → (none : Option String) = none →
      attemptGeneration (some "data:img-ok") none = getPlaceholderImage 1024 576 ∧
      attemptCallCount (some "data:img-ok") = 2) ∧
    ((none : Option String) = none → (none : Option String) = none →
      attemptGeneration none none = getPlaceholderImage 1024 576) :=
  generateComicPanels_retry_placeholder (some "data:img-ok") none none none

/-! ## Continuity Engine: `generateStoryContinuation` (claims C1, C3, C7, C10)

src/services/geminiService.ts lines 610-765. The backend call, JSON cleanup and
parse, and the `panel_details` array check collapse into one observable outcome:
either a parsed list of raw panel entries, or an error (service failure, parse
failure, or missing/invalid `panel_details`), all of which land in the same
`catch` block. -/

/-- One raw entry of the backend's `panel_details` array (schema keys
`description`, `camera_shot`, `characters`). -/
structure RawPanelDetail where
  description : String
  camera_shot : String
  characters : List String
deriving Repr, DecidableEq

/-- One reconciled entry returned by `generateStoryContinuation`. -/
structure ContinuationDetail where
  description : String
  cameraShot : String
  characterIds : List String
deriving Repr, DecidableEq

/-- JavaScript `Map.prototype.get` over an association list built with the `Map`
constructor: for duplicate keys the last insertion wins. -/
def jsMapGet {β : Type} (l : List (String × β)) (k : String) : Option β :=
  match l with
  | [] => none
  | (a, b) :: t =>
    match jsMapGet t k with
    | some v => some v
    | none => if a == k then some b else none

theorem jsMapGet_eq_some_mem {β : Type} (l : List (String × β)) (k : String) (v : β)
    (h : jsMapGet l k = some v) : (k, v) ∈ l := by
  induction l with
  | nil => simp [jsMapGet] at h
  | cons p t ih =>
    obtain ⟨a, b⟩ := p
    simp only [jsMapGet] at h
    rcases hrec : jsMapGet t k with - | w <;> rw [hrec] at h
    · by_cases hak : (a == k) = true
      · rw [if_pos hak] at h
        have hb : b = v := by injection h
        have hak' : a = k := by simpa using hak
        subst hb
        subst hak'
        exact List.mem_cons_self _ _
      · rw [if_neg hak] at h
        exact absurd h (by simp)
    · injection h with hv
      subst hv
      exact List.mem_cons_of_mem _ (ih hrec)

theorem jsMapGet_eq_none_of_not_mem {β : Type} (l : List (String × β)) (k : String)
    (h : ∀ p ∈ l, p.1 ≠ k) : jsMapGet l k = none := by
  induction l with
  | nil => rfl
  | cons p t ih =>
    obtain ⟨a, b⟩ := p
    simp only [jsMapGet]
    rw [ih (fun q hq => h q (List.mem_cons_of_mem _ hq))]
    simp only [beq_iff_eq]
    rw [if_neg (h (a, b) (List.mem_cons_self _ _))]

theorem jsMapGet_of_nodup_mem {β : Type} (l : List (String × β)) (k : String) (v : β)
    (hnd : (l.map Prod.fst).Nodup) (hmem : (k, v) ∈ l) : jsMapGet l k = some v := by
  induction l with
  | nil => simp at hmem
  | cons p t ih =>
    obtain ⟨a, b⟩ := p
    simp only [List.map_cons, List.nodup_cons, List.mem_map] at hnd
    rcases List.mem_cons.mp hmem with heq | htail
    · cases heq
      have hnone : jsMapGet t k = none := by
        refine jsMapGet_eq_none_of_not_mem t k (fun q hq hqk => ?_)
        exact hnd.1 ⟨q, hq, hqk⟩
      simp [jsMapGet, hnone]
    · simp only [jsMapGet, ih hnd.2 htail]

/-- Name-to-id lookup map for the continuation reconciliation
(`charNameToId = new Map(allCharacters.map(c => [c.name, c.characterId]))`). -/
def charNameToId (allCharacters : List Character) : List (String × String) :=
  allCharacters.map (fun c => (c.name, c.characterId))

/-- One step of `charNameToId.get(name)` composed with the `.filter(Boolean)`
truthiness test: a name that does not resolve, or resolves to an empty-string id,
is dropped. -/
def resolveName (allCharacters : List Character) (n : String) : Option String :=
  match jsMapGet (charNameToId allCharacters) n with
  | some cid => if cid == "" then none else some cid
  | none => none

/-- `(detail.characters || []).map(name => charNameToId.get(name)).filter(Boolean)`:
resolve each returned character name to a registry id, dropping names that do not
resolve (and, per JS truthiness, an empty-string id). -/
def resolveCharacterIds (allCharacters : List Character) (names : List String) :
    List String :=
  names.filterMap (resolveName allCharacters)

theorem resolveName_eq_some (chars : List Character) (n cid : String)
    (h : resolveName chars n = some cid) :
    jsMapGet (charNameToId chars) n = some cid := by
  rcases hget : jsMapGet (charNameToId chars) n with - | cid'
  · simp [resolveName, hget] at h
  · simp only [resolveName, hget] at h
    split at h
    · exact absurd h (by simp)
    · injection h with hv
      subst hv
      rfl

/-- src/services/geminiService.ts line 758: the fixed fallback narrative inserted
on any continuation error. -/
def fallbackMessage : String := "发生意外错误。英雄停顿了一下，不知道接下来该做什么。"

/-- src/services/geminiService.ts lines 628-642: the character pool is the
selected main characters when that selection is non-empty, otherwise the whole
registry. (The pool only shapes the request prompt text; see
`pool_resolution_subset_registry`.) -/
def characterPool (allCharacters mainCharacters : List Character) : List Character :=
  if mainCharacters.length > 0 then mainCharacters else allCharacters

/-- src/services/geminiService.ts `generateStoryContinuation`, reconciliation and
fallback (lines 726-764). On a parsed `panel_details` array the result is
normalized to exactly `panelCount` entries: entry `i` carries the raw entry's
description and camera shot with its names resolved to ids, and entries beyond
the raw length are blanked (`details[i] || {description: "", cameraShot:
availableCameraShots[0], characterIds: []}`). On any error the result is
`panelCount` entries with the fallback narrative in entry 0. JS indexing
`availableCameraShots[0]` on an empty array would yield `undefined`; it is
modelled by `List.headD ""`. -/
def generateStoryContinuation (panelCount : Nat) (availableCameraShots : List String)
    (allCharacters : List Character)
    (outcome : Except Unit (List RawPanelDetail)) : List ContinuationDetail :=
  match outcome with
  | .ok details =>
    (List.range panelCount).map (fun i =>
      match details[i]? with
      | some d =>
        { description := d.description
          cameraShot := d.camera_shot
          characterIds := resolveCharacterIds allCharacters d.characters }
      | none =>
        { description := ""
          cameraShot := availableCameraShots.headD ""
          characterIds := [] })
  | .error _ =>
    (List.range panelCount).map (fun i =>
      { description := if i == 0 then fallbackMessage else ""
        cameraShot := availableCameraShots.headD ""
        characterIds := [] })

theorem generateStoryContinuation_length (panelCount : Nat) (shots : List String)
    (chars : List Character) (outcome : Except Unit (List RawPanelDetail)) :
    (generateStoryContinuation panelCount shots chars outcome).length = panelCount := by
  cases outcome <;> simp [generateStoryContinuation]

/-- Claim C10: `generateStoryContinuation` is total and normalizes its length. For
every backend outcome the result has exactly `panelCount` entries; on a parsed
response, entry `i` beyond the raw response length is padded with an empty
description, the first camera shot of the enumerated list, and no character ids,
while entry `i` within the raw length carries that raw entry reconciled; on any
service or parse error, entry 0 carries the fixed fallback narrative and every
later entry is blank. -/
theorem generateStoryContinuation_totality (panelCount : Nat) (shots : List String)
    (chars : List Character) (outcome : Except Unit (List RawPanelDetail))
    (hshots : shots ≠ []) :
    (generateStoryContinuation panelCount shots chars outcome).length = panelCount ∧
    (∀ details, outcome = .ok details →
      (∀ i, i < panelCount → details.length ≤ i →
        (generateStoryContinuation panelCount shots chars outcome)[i]? =
          some { description := "", cameraShot := shots.headD "", characterIds := [] }) ∧
      (∀ i d, i < panelCount → details[i]? = some d →
        (generateStoryContinuation panelCount shots chars outcome)[i]? =
          some { description := d.description, cameraShot := d.camera_shot,
                 characterIds := resolveCharacterIds chars d.characters })) ∧
    (∀ e, outcome = .error e → ∀ i, i < panelCount →
      (generateStoryContinuation panelCount shots chars outcome)[i]? =
        some { description := if i = 0 then fallbackMessage else "",
               cameraShot := shots.headD "", characterIds := [] }) ∧
    shots.headD "" ∈ shots := by
  refine ⟨generateStoryContinuation_length .., ?_, ?_, ?_⟩
  · rintro details rfl
    constructor
    · intro i hi hlen
      simp only [generateStoryContinuation, List.getElem?_map, List.getElem?_range hi,
        Option.map_some']
      rw [List.getElem?_eq_none hlen]
    · intro i d hi hd
      simp only [generateStoryContinuation, List.getElem?_map, List.getElem?_range hi,
        Option.map_some']
      rw [hd]
  · rintro e rfl i hi
    simp only [generateStoryContinuation, List.getElem?_map, List.getElem?_range hi,
      Option.map_some', beq_iff_eq]
  · cases shots with
    | nil => exact absurd rfl hshots
    | cons a t => exact List.mem_cons_self a t

theorem generateStoryContinuation_totality_witness :
    ((["全景"] : List String) ≠ []) ∧
    ((generateStoryContinuation 3 ["全景"] [] (.error ())).length = 3 ∧
    (∀ details, (Except.error () : Except Unit (List RawPanelDetail)) = .ok details →
      (∀ i, i < 3 → details.length ≤ i →
        (generateStoryContinuation 3 ["全景"] [] (.error ()))[i]? =
          some { description := "", cameraShot := ["全景"].headD "", characterIds := [] }) ∧
      (∀ i d, i < 3 → details[i]? = some d →
        (generateStoryContinuation 3 ["全景"] [] (.error ()))[i]? =
          some { description := d.description, cameraShot := d.camera_shot,
                 characterIds := resolveCharacterIds [] d.characters })) ∧
    (∀ e, (Except.error () : Except Unit (List RawPanelDetail)) = .error e →
      ∀ i, i < 3 →
      (generateStoryContinuation 3 ["全景"] [] (.error ()))[i]? =
        some { description := if i = 0 then fallbackMessage else "",
               cameraShot := ["全景"].headD "", characterIds := [] }) ∧
    (["全景"] : List String).headD "" ∈ (["全景"] : List String)) :=
  ⟨by decide, generateStoryContinuation_totality 3 ["全景"] [] (.error ()) (by decide)⟩

/-! ## PageCreator reconciliation of a continuation into the Scene Set
(claims C1, C3, C7)

src/components/PageCreator.tsx `handleGenerate`, lines 305-333: when the
continuation details cover all panels, each scene is overwritten with its
detail's description and character ids, accepting the returned camera shot only
when it belongs to `CAMERA_SHOTS`; when the details are shorter, the
concatenated descriptions land in panel 1 and all later panels are blanked. -/

/-- One panel's update (PageCreator lines 306-320). `detail.description || ''`
and `detail.characterIds || []` are identities on the modelled types (an empty
string and an absent list already denote the fallback values). -/
def reconcilePanel (scene : Scene) (detail? : Option ContinuationDetail) : Scene :=
  match detail? with
  | none => scene
  | some detail =>
    { scene with
      description := detail.description
      cameraShot := if CAMERA_SHOTS.contains detail.cameraShot then detail.cameraShot
                    else scene.cameraShot
      characterIds := detail.characterIds }

/-- PageCreator lines 305-333: write the continuation details back into the
scenes. The `else` branch is the short-response fallback: all returned
descriptions joined with spaces into panel 1 (`join(' ')`), every later panel's
description blanked. -/
def applyContinuation (panelCount : Nat) (scenes : List Scene)
    (continuationDetails : List ContinuationDetail) : List Scene :=
  if panelCount ≤ continuationDetails.length then
    scenes.enum.map (fun p => reconcilePanel p.2 continuationDetails[p.1]?)
  else
    match scenes with
    | [] => []
    | s₀ :: rest =>
      { s₀ with
        description := " ".intercalate (continuationDetails.map (fun d => d.description)) }
        :: rest.map (fun s => { s with description := "" })

/-- The AI auto-write path end to end: the service reconciliation (which maps
names to ids and normalizes the length) followed by the PageCreator write-back.
PageCreator passes `CAMERA_SHOTS` as the available shot list. -/
def runContinuation (panelCount : Nat) (allCharacters : List Character)
    (scenes : List Scene) (outcome : Except Unit (List RawPanelDetail)) : List Scene :=
  applyContinuation panelCount scenes
    (generateStoryContinuation panelCount CAMERA_SHOTS allCharacters outcome)

theorem applyContinuation_getElem?_of_covering (panelCount : Nat) (scenes : List Scene)
    (details : List ContinuationDetail) (h : panelCount ≤ details.length)
    (i : Nat) (hi : i < scenes.length) :
    (applyContinuation panelCount scenes details)[i]? =
      some (reconcilePanel (scenes.get ⟨i, hi⟩) details[i]?) := by
  simp only [applyContinuation, if_pos h, List.getElem?_map, List.getElem?_enum]
  rw [List.getElem?_eq_getElem hi]
  rfl

theorem runContinuation_details_length (panelCount : Nat) (chars : List Character)
    (outcome : Except Unit (List RawPanelDetail)) :
    panelCount ≤ (generateStoryContinuation panelCount CAMERA_SHOTS chars outcome).length :=
  le_of_eq (generateStoryContinuation_length ..).symm

/-! ### Claim C1 (corrected): the character-pool restriction is not enforced on
the reconciled output. -/

/-- Registry character "Aria" for the continuation counterexamples. -/
def chA : Character :=
  { characterId := "char-A", name := "Aria", referenceImageUrl := "uA",
    corePrompt := "silver-haired knight" }

/-- Registry character "Bram"; in the counterexample he is in the registry but
not in the main-character selection. -/
def chB : Character :=
  { characterId := "char-B", name := "Bram", referenceImageUrl := "uB",
    corePrompt := "dark mage" }

/-- Claim C1 counterexample. Selection `[chA]` (ids `["char-A"]`), registry
`[chA, chB]`, one panel with no preset ids, and a raw response naming the
out-of-selection registry character "Bram": the reconciled panel's
`characterIds` is `["char-B"]`, an id outside the selected set united with the
panel's (empty) preset ids — the name→id lookup is built from `allCharacters`,
not from the pool, so the selection restricts only the request prompt. -/
theorem pool_restriction_counterexample :
    ((runContinuation 1 [chA, chB]
        [{ sceneId := "s0", description := "", cameraShot := "中景",
           characterIds := [], assetIds := [] }]
        (.ok [{ description := "Bram appears", camera_shot := "全景",
                characters := ["Bram"] }])).map (fun sc => sc.characterIds))
      = [["char-B"]] ∧
    ([({ sceneId := "s0", description := "", cameraShot := "中景",
         characterIds := [], assetIds := [] } : Scene)].flatMap
       (fun sc => sc.characterIds)) = [] ∧
    "char-B" ∉ ([chA].map (fun c => c.characterId)) := by
  refine ⟨by rfl, by rfl, by decide⟩

/-- Claim C1 amended: the reconciliation resolves names against the whole
registry, so the guarantee the code gives is only that every resolved id in the
output belongs to some registry character (unresolvable names are dropped);
an out-of-selection registry name does resolve to that character's id. The
non-empty selection restricts the character pool sent in the request prompt
(`characterPool`), not the reconciled output. -/
theorem pool_resolution_subset_registry (panelCount : Nat) (shots : List String)
    (allCharacters mainCharacters : List Character)
    (outcome : Except Unit (List RawPanelDetail)) :
    (∀ d ∈ generateStoryContinuation panelCount shots allCharacters outcome,
      ∀ cid ∈ d.characterIds, ∃ c ∈ allCharacters, c.characterId = cid) ∧
    (mainCharacters ≠ [] → characterPool allCharacters mainCharacters = mainCharacters) := by
  constructor
  · intro d hd cid hcid
    have hres : ∀ names, cid ∈ resolveCharacterIds allCharacters names →
        ∃ c ∈ allCharacters, c.characterId = cid := by
      intro names hmem
      simp only [resolveCharacterIds, List.mem_filterMap] at hmem
      obtain ⟨n, -, hfn⟩ := hmem
      have hget := resolveName_eq_some allCharacters n cid hfn
      have hpairmem := jsMapGet_eq_some_mem _ _ _ hget
      simp only [charNameToId, List.mem_map] at hpairmem
      obtain ⟨c, hc, hpair⟩ := hpairmem
      exact ⟨c, hc, congrArg Prod.snd hpair⟩
    cases outcome with
    | error e =>
      simp only [generateStoryContinuation, List.mem_map] at hd
      obtain ⟨i, -, rfl⟩ := hd
      simp at hcid
    | ok details =>
      simp only [generateStoryContinuation, List.mem_map] at hd
      obtain ⟨i, -, rfl⟩ := hd
      rcases hdet : details[i]? with - | raw
      · rw [hdet] at hcid
        simp at hcid
      · rw [hdet] at hcid
        exact hres raw.characters hcid
  · intro hne
    have : mainCharacters.length > 0 := List.length_pos.mpr hne
    simp [characterPool, this]

theorem pool_resolution_subset_registry_witness :
    (∀ d ∈ generateStoryContinuation 1 CAMERA_SHOTS [chA, chB]
        (.ok [{ description := "Bram appears", camera_shot := "全景",
                characters := ["Bram", "Ghost"] }]),
      ∀ cid ∈ d.characterIds, ∃ c ∈ [chA, chB], c.characterId = cid) ∧
    (([chA] : List Character) ≠ [] → characterPool [chA, chB] [chA] = [chA]) :=
  pool_resolution_subset_registry 1 CAMERA_SHOTS [chA, chB] [chA]
    (.ok [{ description := "Bram appears", camera_shot := "全景",
            characters := ["Bram", "Ghost"] }])

/-! ### Claim C3 (corrected): the short-response fallback branch is dead; the
service pads instead. -/

/-- Claim C3 counterexample. Three panels requested, raw response carries two
entries with descriptions "a" and "b". The claim predicts panel 1 = "a b" and
panels 2-3 blank; the pipeline instead leaves "a" in panel 1, "b" in panel 2 and
blanks only panel 3, because the service already pads the response to three
entries, so the PageCreator concatenation branch never runs. -/
theorem short_response_counterexample :
    ((runContinuation 3 []
        [{ sceneId := "s0", description := "x", cameraShot := "中景",
           characterIds := [], assetIds := [] },
         { sceneId := "s1", description := "y", cameraShot := "中景",
           characterIds := [], assetIds := [] },
         { sceneId := "s2", description := "z", cameraShot := "中景",
           characterIds := [], assetIds := [] }]
        (.ok [{ description := "a", camera_shot := "全景", characters := [] },
              { description := "b", camera_shot := "特写镜头", characters := [] }])).map
      (fun sc => sc.description)) = ["a", "b", ""] ∧
    ((runContinuation 3 []
        [{ sceneId := "s0", description := "x", cameraShot := "中景",
           characterIds := [], assetIds := [] },
         { sceneId := "s1", description := "y", cameraShot := "中景",
           characterIds := [], assetIds := [] },
         { sceneId := "s2", description := "z", cameraShot := "中景",
           characterIds := [], assetIds := [] }]
        (.ok [{ description := "a", camera_shot := "全景", characters := [] },
              { description := "b", camera_shot := "特写镜头", characters := [] }])).map
      (fun sc => sc.description)) ≠ ["a b", "", ""] := by
  refine ⟨by rfl, by decide⟩

/-- Claim C3 amended: when the raw continuation response has fewer panel entries
than requested, the service pads the missing tail with blank entries before the
PageCreator write-back ever sees it, so the reconciled Scene Set keeps each
returned description in its own panel and blanks exactly the panels beyond the
raw length; nothing is concatenated into panel 1 and no exception is thrown
(the PageCreator concatenation branch is unreachable because the service always
returns exactly `panelCount` entries). -/
theorem short_response_padding (panelCount : Nat) (chars : List Character)
    (scenes : List Scene) (raw : List RawPanelDetail)
    (hlen : scenes.length = panelCount) (hshort : raw.length < panelCount) :
    ((runContinuation panelCount chars scenes (.ok raw)).length = panelCount) ∧
    (∀ i, i < raw.length →
      ((runContinuation panelCount chars scenes (.ok raw))[i]?).map (fun sc => sc.description)
        = (raw[i]?).map (fun d => d.description)) ∧
    (∀ i, raw.length ≤ i → i < panelCount →
      ((runContinuation panelCount chars scenes (.ok raw))[i]?).map (fun sc => sc.description)
        = some "") := by
  have hcov := runContinuation_details_length panelCount chars (.ok raw)
  refine ⟨?_, ?_, ?_⟩
  · simp [runContinuation, applyContinuation, if_pos hcov, hlen]
  · intro i hi
    have hi' : i < panelCount := hi.trans hshort
    have hisc : i < scenes.length := hlen ▸ hi'
    rw [runContinuation, applyContinuation_getElem?_of_covering _ _ _ hcov i hisc]
    simp only [generateStoryContinuation, List.getElem?_map, List.getElem?_range hi',
      Option.map_some']
    rw [List.getElem?_eq_getElem hi]
    simp [reconcilePanel]
  · intro i hiraw hi'
    have hisc : i < scenes.length := hlen ▸ hi'
    rw [runContinuation, applyContinuation_getElem?_of_covering _ _ _ hcov i hisc]
    simp only [generateStoryContinuation, List.getElem?_map, List.getElem?_range hi',
      Option.map_some']
    rw [List.getElem?_eq_none hiraw]
    simp [reconcilePanel]

theorem short_response_padding_witness :
    (([{ sceneId := "s0", description := "x", cameraShot := "中景",
         characterIds := [], assetIds := [] },
       { sceneId := "s1", description := "y", cameraShot := "中景",
         characterIds := [], assetIds := [] },
       { sceneId := "s2", description := "z", cameraShot := "中景",
         characterIds := [], assetIds := [] }] : List Scene).length = 3) ∧
    (([{ description := "a", camera_shot := "全景", characters := [] },
       { description := "b", camera_shot := "特写镜头", characters := [] }] :
        List RawPanelDetail).length < 3) ∧
    (((runContinuation 3 []
        [{ sceneId := "s0", description := "x", cameraShot := "中景",
           characterIds := [], assetIds := [] },
         { sceneId := "s1", description := "y", cameraShot := "中景",
           characterIds := [], assetIds := [] },
         { sceneId := "s2", description := "z", cameraShot := "中景",
           characterIds := [], assetIds := [] }]
        (.ok [{ description := "a", camera_shot := "全景", characters := [] },
              { description := "b", camera_shot := "特写镜头", characters := [] }])).length = 3) ∧
    (∀ i, i < ([{ description := "a", camera_shot := "全景", characters := [] },
       { description := "b", camera_shot := "特写镜头", characters := [] }] :
        List RawPanelDetail).length →
      ((runContinuation 3 []
        [{ sceneId := "s0", description := "x", cameraShot := "中景",
           characterIds := [], assetIds := [] },
         { sceneId := "s1", description := "y", cameraShot := "中景",
           characterIds := [], assetIds := [] },
         { sceneId := "s2", description := "z", cameraShot := "中景",
           characterIds := [], assetIds := [] }]
        (.ok [{ description := "a", camera_shot := "全景", characters := [] },
              { description := "b", camera_shot := "特写镜头", characters := [] }]))[i]?).map
          (fun sc => sc.description)
        = (([{ description := "a", camera_shot := "全景", characters := [] },
             { description := "b", camera_shot := "特写镜头", characters := [] }] :
             List RawPanelDetail)[i]?).map (fun d => d.description)) ∧
    (∀ i, ([{ description := "a", camera_shot := "全景", characters := [] },
       { description := "b", camera_shot := "特写镜头", characters := [] }] :
        List RawPanelDetail).length ≤ i → i < 3 →
      ((runContinuation 3 []
        [{ sceneId := "s0", description := "x", cameraShot := "中景",
           characterIds := [], assetIds := [] },
         { sceneId := "s1", description := "y", cameraShot := "中景",
           characterIds := [], assetIds := [] },
         { sceneId := "s2", description := "z", cameraShot := "中景",
           characterIds := [], assetIds := [] }]
        (.ok [{ description := "a", camera_shot := "全景", characters := [] },
              { description := "b", camera_shot := "特写镜头", characters := [] }]))[i]?).map
          (fun sc => sc.description)
        = some "")) :=
  ⟨by decide, by decide,
    short_response_padding 3 []
      [{ sceneId := "s0", description := "x", cameraShot := "中景",
         characterIds := [], assetIds := [] },
       { sceneId := "s1", description := "y", cameraShot := "中景",
         characterIds := [], assetIds := [] },
       { sceneId := "s2", description := "z", cameraShot := "中景",
         characterIds := [], assetIds := [] }]
      [{ description := "a", camera_shot := "全景", characters := [] },
       { description := "b", camera_shot := "特写镜头", characters := [] }]
      (by decide) (by decide)⟩

/-! ### Claim C7: camera-shot vocabulary enforcement. -/

/-- Vocabulary closure of the write-back, for any details list and both branches
of `applyContinuation`: a reconciled scene's camera shot is either an enumerated
shot the details supplied or the scene's previous shot. -/
theorem applyContinuation_shots_closed (panelCount : Nat) (scenes : List Scene)
    (details : List ContinuationDetail)
    (hvocab : ∀ sc ∈ scenes, sc.cameraShot ∈ CAMERA_SHOTS) :
    ∀ sc ∈ applyContinuation panelCount scenes details, sc.cameraShot ∈ CAMERA_SHOTS := by
  intro sc hsc
  unfold applyContinuation at hsc
  split at hsc
  · simp only [List.mem_map] at hsc
    obtain ⟨p, hp, rfl⟩ := hsc
    have hmem : p.2 ∈ scenes := by
      rw [List.mem_enum_iff_getElem?] at hp
      exact List.getElem?_mem hp
    rcases hdet : details[p.1]? with - | detail
    · simpa [reconcilePanel, hdet] using hvocab p.2 hmem
    · simp only [reconcilePanel, hdet]
      by_cases hcon : CAMERA_SHOTS.contains detail.cameraShot = true
      · simp only [if_pos hcon]
        simpa using hcon
      · simp only [if_neg hcon]
        exact hvocab p.2 hmem
  · cases scenes with
    | nil => simp at hsc
    | cons s₀ rest =>
      rcases List.mem_cons.mp hsc with rfl | htail
      · exact hvocab s₀ (List.mem_cons_self ..)
      · simp only [List.mem_map] at htail
        obtain ⟨s, hs, rfl⟩ := htail
        exact hvocab s (List.mem_cons_of_mem _ hs)

/-- Claim C7: during reconciliation, a raw camera shot outside `CAMERA_SHOTS`
never reaches the Scene Set — the panel keeps its previous shot — and, whenever
the prior scenes' shots are all in the vocabulary, every reconciled shot is too
(the service's padding and fallback shots are `CAMERA_SHOTS[0]`, also in the
vocabulary). -/
theorem camera_shot_validation (panelCount : Nat) (chars : List Character)
    (scenes : List Scene) (outcome : Except Unit (List RawPanelDetail))
    (hlen : scenes.length = panelCount) :
    (∀ raw, outcome = .ok raw → ∀ i d, i < scenes.length → raw[i]? = some d →
      d.camera_shot ∉ CAMERA_SHOTS →
      ((runContinuation panelCount chars scenes outcome)[i]?).map (fun sc => sc.cameraShot)
        = (scenes[i]?).map (fun sc => sc.cameraShot)) ∧
    ((∀ sc ∈ scenes, sc.cameraShot ∈ CAMERA_SHOTS) →
      ∀ sc ∈ runContinuation panelCount chars scenes outcome,
        sc.cameraShot ∈ CAMERA_SHOTS) := by
  constructor
  · rintro raw rfl i d hi hdet hbad
    have hcov := runContinuation_details_length panelCount chars (.ok raw)
    rw [runContinuation, applyContinuation_getElem?_of_covering _ _ _ hcov i hi]
    have hi' : i < panelCount := hlen ▸ hi
    simp only [generateStoryContinuation, List.getElem?_map, List.getElem?_range hi',
      Option.map_some']
    rw [hdet]
    have hcon : CAMERA_SHOTS.contains d.camera_shot = false := by
      simpa using hbad
    rw [List.getElem?_eq_getElem hi]
    simp only [reconcilePanel, hcon, Bool.false_eq_true, if_false, Option.map_some']
    rfl
  · intro hvocab
    exact applyContinuation_shots_closed panelCount scenes _ hvocab

/-- A one-panel Scene Set whose current shot is the enumerated "中景". -/
def shotScenes : List Scene :=
  [{ sceneId := "s0", description := "x", cameraShot := "中景",
     characterIds := [], assetIds := [] }]

/-- A raw response whose camera shot "糟糕镜头" is outside `CAMERA_SHOTS`. -/
def shotRaw : List RawPanelDetail :=
  [{ description := "a", camera_shot := "糟糕镜头", characters := [] }]

theorem camera_shot_validation_witness :
    shotScenes.length = 1 ∧
    ((∀ raw, (Except.ok shotRaw : Except Unit (List RawPanelDetail)) = .ok raw →
      ∀ i d, i < shotScenes.length → raw[i]? = some d →
      d.camera_shot ∉ CAMERA_SHOTS →
      ((runContinuation 1 [] shotScenes (.ok shotRaw))[i]?).map (fun sc => sc.cameraShot)
        = (shotScenes[i]?).map (fun sc => sc.cameraShot)) ∧
    ((∀ sc ∈ shotScenes, sc.cameraShot ∈ CAMERA_SHOTS) →
      ∀ sc ∈ runContinuation 1 [] shotScenes (.ok shotRaw),
        sc.cameraShot ∈ CAMERA_SHOTS)) :=
  ⟨by decide, camera_shot_validation 1 [] shotScenes (.ok shotRaw) (by decide)⟩

/-! ## Prompt Compiler: `buildPrompt` (claims C4, C5, C6)

src/components/PageCreator.tsx lines 147-237. The mixed character/asset list is
discriminated in the source by `'characterId' in item`; here it is the sum type
`Character ⊕ Asset`. -/

def entityId : Character ⊕ Asset → String
  | .inl c => c.characterId
  | .inr a => a.assetId

def entityName : Character ⊕ Asset → String
  | .inl c => c.name
  | .inr a => a.name

def entityCorePrompt : Character ⊕ Asset → String
  | .inl c => c.corePrompt
  | .inr a => a.corePrompt

/-- `'characterId' in item ? '角色' : '物品'` in the character sheet. -/
def entityTypeLabel : Character ⊕ Asset → String
  | .inl _ => "角色"
  | .inr _ => "物品"

/-- Characters assigned to at least one scene, in registry order
(`allAvailableCharacters.filter(c => appearingCharIds.has(c.characterId))`). -/
def appearingCharacters (allAvailableCharacters : List Character)
    (currentScenes : List Scene) : List Character :=
  allAvailableCharacters.filter
    (fun c => (currentScenes.flatMap (fun s => s.characterIds)).contains c.characterId)

/-- Assets assigned to at least one scene, in registry order. -/
def appearingAssets (allAvailableAssets : List Asset)
    (currentScenes : List Scene) : List Asset :=
  allAvailableAssets.filter
    (fun a => (currentScenes.flatMap (fun s => s.assetIds)).contains a.assetId)

/-- `allAppearingItems = [...appearingCharacters, ...appearingAssets]`: the
reference-image manifest, characters first, then assets. -/
def allAppearingItems (chars : List Character) (assets : List Asset)
    (scenes : List Scene) : List (Character ⊕ Asset) :=
  (appearingCharacters chars scenes).map Sum.inl ++
    (appearingAssets assets scenes).map Sum.inr

/-- `itemToRefNumMap = new Map(allAppearingItems.map((item, index) =>
[id(item), index + 1]))`: the 1-based reference indices. -/
def itemToRefNumMap (chars : List Character) (assets : List Asset)
    (scenes : List Scene) : List (String × Nat) :=
  (allAppearingItems chars assets scenes).enum.map (fun p => (entityId p.2, p.1 + 1))

/-- `itemToRefNumMap.get(id)` as read while emitting the per-panel lines. -/
def refNumOf (chars : List Character) (assets : List Asset) (scenes : List Scene)
    (id : String) : Option Nat :=
  jsMapGet (itemToRefNumMap chars assets scenes) id

/-- Split a character list at whitespace characters; `cur` is the reversed
current token. Structural-recursion equivalent of splitting on the `/\s+/`
regex's single characters. -/
def splitWsAux (cur : List Char) : List Char → List (List Char)
  | [] => [cur.reverse]
  | c :: rest =>
    if c.isWhitespace then cur.reverse :: splitWsAux [] rest
    else splitWsAux (c :: cur) rest

/-- JS `.trim().replace(/\s+/g, ' ')` applied to the assembled template: trim the
ends and collapse every whitespace run to a single space — equivalently, the
non-empty whitespace-separated tokens joined by single spaces. -/
def collapseWs (s : String) : String :=
  String.mk (List.intercalate [' ']
    ((splitWsAux [] s.data).filter (fun t => ¬ t.isEmpty)))

/-- PageCreator line 181: the spread aspect instruction. -/
def landscapeAspectInstruction : String :=
  "ABSOLUTE REQUIREMENT: The output image MUST BE LANDSCAPE with a strict 4:3 aspect ratio, representing a two-page spread. DO NOT generate a portrait image. This is the most important instruction."

/-- PageCreator line 182: the non-spread aspect instruction. -/
def portraitAspectInstruction : String :=
  "ABSOLUTE REQUIREMENT: The output image MUST BE PORTRAIT with a strict 2:3 aspect ratio. DO NOT generate a landscape image. This is the most important instruction."

/-- `isSpread = currentProject.format === ComicFormat.PAGE && currentPageMode ===
PageMode.SPREAD` (line 179). -/
def isSpread (format : ComicFormat) (mode : PageMode) : Bool :=
  format == ComicFormat.page && mode == PageMode.spread

/-- PageCreator lines 180-182: the aspect-ratio instruction is the landscape
string when spread, otherwise the portrait string — for webtoon as well. -/
def aspectRatioInstruction (format : ComicFormat) (mode : PageMode) : String :=
  if isSpread format mode then landscapeAspectInstruction else portraitAspectInstruction

def spreadMainInstruction : String :=
  "创建一个单一、统一的漫画风格图片，该图片为一个横版的跨页大图（double-page spread），其中包含按照指定布局排列的多个分镜。这种跨页用于营造宏大、有冲击力的场景，为翻页阅读的读者带来惊喜。"

def singleMainInstruction : String :=
  "创建一个单一、统一的漫画风格图片，该图片为一个标准的竖版漫画页（comic page），其中包含按照指定布局排列的多个分镜。你需要注重复杂、多变的构图，以控制翻页阅读的节奏。"

def webtoonMainInstruction : String :=
  "创建一个单一、统一的漫画风格图片，该图片为一个竖版长条漫画（webtoon/strip）的一部分，其中包含按照指定布局排列的多个分鏡。你需要使用简洁的、以垂直排列为主的布局，并利用画格间的间距和留白来控制上下滑动阅读的节奏。"

/-- PageCreator lines 184-191: the main task instruction. -/
def mainInstruction (format : ComicFormat) (mode : PageMode) : String :=
  if format == ComicFormat.page then
    if isSpread format mode then spreadMainInstruction else singleMainInstruction
  else webtoonMainInstruction

/-- PageCreator lines 193-195. -/
def colorInstruction (colorMode : ColorMode) : String :=
  if colorMode == ColorMode.bw then
    "ABSOLUTE REQUIREMENT: The image MUST be in black and white (monochrome), using manga screen tones for shading. DO NOT use any color."
  else
    "The image should be in full, vibrant color."

def characterSheetHeader : String :=
  "**角色与参考图对应表 (Character Sheet):**\n你必须严格遵守此对应关系。参考图按此列表顺序提供。\n\n"

def characterSheetFooter : String :=
  "在下面的分镜内容描述中，如果提到了某个角色的名字或指定了参考图，你【必须】使用上面表格中对应的参考图来绘制该角色。这是最重要的规则。"

/-- PageCreator lines 166-177: the character sheet block listing every appearing
item with its reference index, or the no-reference placeholder. -/
def characterSheet (chars : List Character) (assets : List Asset)
    (scenes : List Scene) : String :=
  let items := allAppearingItems chars assets scenes
  if items.length > 0 then
    characterSheetHeader ++
      String.join (items.enum.map (fun p =>
        "参考图 " ++ toString (p.1 + 1) ++ ": [" ++ entityTypeLabel p.2 ++ "] \"" ++
          entityName p.2 ++ "\"\n- 核心描述: " ++ entityCorePrompt p.2 ++ "\n\n")) ++
      characterSheetFooter
  else
    "**参考资料:** 未提供特定角色参考。"

/-- `scene.characterIds.map(id => find(...)).filter(Boolean)`: a scene's assigned
characters resolved against the registry, stale ids silently skipped. -/
def scenePanelChars (chars : List Character) (scene : Scene) : List Character :=
  scene.characterIds.filterMap (fun id => chars.find? (fun c => c.characterId == id))

/-- A scene's assigned assets resolved against the registry. -/
def scenePanelAssets (assets : List Asset) (scene : Scene) : List Asset :=
  scene.assetIds.filterMap (fun id => assets.find? (fun a => a.assetId == id))

/-- A JS template literal renders `Map.get`'s miss (`undefined`) as the string
"undefined". -/
def jsShowRefNum : Option Nat → String
  | some n => toString n
  | none => "undefined"

/-- PageCreator lines 198-214: one panel's content line, with the inline
appearance clause when the scene has assigned entities. -/
def panelLine (chars : List Character) (assets : List Asset) (scenes : List Scene)
    (index : Nat) (scene : Scene) : String :=
  let sceneChars := scenePanelChars chars scene
  let sceneAssets := scenePanelAssets assets scene
  let sceneItems : List (Character ⊕ Asset) :=
    sceneChars.map Sum.inl ++ sceneAssets.map Sum.inr
  let appearanceInstruction :=
    if sceneItems.length > 0 then
      let itemsList := ", ".intercalate (sceneItems.map (fun item =>
        "\"" ++ entityName item ++ "\" (参考图 " ++
          jsShowRefNum (refNumOf chars assets scenes (entityId item)) ++ ")"))
      let typeLabel :=
        if sceneChars.length > 0 && sceneAssets.length > 0 then "角色/道具"
        else if sceneChars.length > 0 then "角色" else "道具"
      " [出场" ++ typeLabel ++ ": " ++ itemsList ++ "]"
    else ""
  "- 分镜 " ++ toString (index + 1) ++ " 内容: [镜头: " ++ scene.cameraShot ++ "] " ++
    scene.description ++ appearanceInstruction

/-- PageCreator lines 198-214: all panel lines joined with newlines. -/
def panelContentDescriptions (chars : List Character) (assets : List Asset)
    (scenes : List Scene) : String :=
  "\n".intercalate (scenes.enum.map (fun p => panelLine chars assets scenes p.1 p.2))

def noTextDirective : String :=
  "**重要指令：** 生成的漫画中绝对不能包含任何文字、标题、音效词 (SFX) 或符号。如果场景需要对话框或气泡，请将它们画成【完全空白】。"

def finalCheckDirective : String :=
  "**最终检查:** 验证最终图像的宽高比是否符合绝对要求，并且分镜布局和角色对应关系是否正确。"

/-- `buildPrompt` (PageCreator lines 147-237): assemble the blocks of the
template literal and apply `.trim().replace(/\s+/g, ' ')`. `propProject` is the
component's closed-over `project` prop, which line 224 reads for the style
prompt (the only call site passes the same object as `currentProject`). -/
def buildPrompt (propProject : Project) (currentLayout : LayoutTemplate)
    (currentScenes : List Scene) (allAvailableCharacters : List Character)
    (allAvailableAssets : List Asset) (currentProject : Project)
    (currentPageMode : PageMode) (currentColorMode : ColorMode) : String :=
  collapseWs (String.intercalate "\n\n"
    [ aspectRatioInstruction currentProject.format currentPageMode,
      characterSheet allAvailableCharacters allAvailableAssets currentScenes,
      "**任务:** " ++ mainInstruction currentProject.format currentPageMode,
      "**风格:** " ++ propProject.stylePrompt ++ ". " ++ colorInstruction currentColorMode,
      noTextDirective,
      "**布局描述:** 图像必须包含 " ++ toString currentLayout.panelCount ++
        " 个分镜，排列方式如下: " ++ currentLayout.description,
      "**分镜内容:**\n" ++
        panelContentDescriptions allAvailableCharacters allAvailableAssets currentScenes,
      finalCheckDirective ])

/-- Substring occurrence, used to exhibit the hard aspect-ratio constraint inside
a compiled prompt. -/
def containsStr (s pat : String) : Prop := pat.toList <:+: s.toList

instance (s pat : String) : Decidable (containsStr s pat) :=
  inferInstanceAs (Decidable (pat.toList <:+: s.toList))

/-- Claim C6: `buildPrompt` is a pure function of its inputs — two invocations on
the same fixed tuple of inputs produce byte-identical prompt strings, and the
embedding is stateless (it reads nothing but its arguments and mutates
nothing). -/
theorem buildPrompt_deterministic (propProject : Project) (currentLayout : LayoutTemplate)
    (currentScenes : List Scene) (allAvailableCharacters : List Character)
    (allAvailableAssets : List Asset) (currentProject : Project)
    (currentPageMode : PageMode) (currentColorMode : ColorMode) :
    buildPrompt propProject currentLayout currentScenes allAvailableCharacters
        allAvailableAssets currentProject currentPageMode currentColorMode =
      buildPrompt propProject currentLayout currentScenes allAvailableCharacters
        allAvailableAssets currentProject currentPageMode currentColorMode := rfl

/-! ### Claim C4 (corrected): webtoon carries the hard portrait constraint. -/

/-- A webtoon project for the aspect-instruction counterexample. -/
def webtoonProject : Project :=
  { projectId := "p1", projectName := "W", format := ComicFormat.webtoon,
    stylePrompt := "japanese shonen manga style, clean lines, high contrast, dynamic action poses" }

/-- A one-panel layout for the counterexample. -/
def splashLayout : LayoutTemplate :=
  { id := "single-panel", name := "整页冲击力", panelCount := 1,
    description := "Splash Page。" }

set_option maxRecDepth 40000

/-- Claim C4 counterexample: for format = webtoon (either page mode) the
aspect-ratio slot of the compiled prompt is the portrait instruction, which
demands a strict 2:3 aspect ratio — so the webtoon prompt does carry a hard
aspect-ratio constraint, and the compiled prompt for a concrete webtoon input
contains it verbatim. -/
theorem webtoon_aspect_counterexample :
    aspectRatioInstruction ComicFormat.webtoon PageMode.single = portraitAspectInstruction ∧
    aspectRatioInstruction ComicFormat.webtoon PageMode.spread = portraitAspectInstruction ∧
    containsStr portraitAspectInstruction "strict 2:3 aspect ratio" ∧
    containsStr
      (buildPrompt webtoonProject splashLayout
        [{ sceneId := "s0", description := "英雄出场", cameraShot := "全景",
           characterIds := [], assetIds := [] }]
        [] [] webtoonProject PageMode.single ColorMode.color)
      "MUST BE PORTRAIT with a strict 2:3 aspect ratio" := by
  refine ⟨rfl, rfl, by decide, by decide⟩

/-- Claim C4 amended: format = page and mode = spread selects the landscape
instruction; format = page and mode = single selects the portrait instruction;
format = webtoon also selects the same hard portrait 2:3 instruction, and only
the separate main-task instruction carries the vertical-strip framing. -/
theorem aspect_instruction_selection (format : ComicFormat) (mode : PageMode) :
    (format = ComicFormat.page → mode = PageMode.spread →
      aspectRatioInstruction format mode = landscapeAspectInstruction) ∧
    (format = ComicFormat.page → mode = PageMode.single →
      aspectRatioInstruction format mode = portraitAspectInstruction) ∧
    (format = ComicFormat.webtoon →
      aspectRatioInstruction format mode = portraitAspectInstruction ∧
      mainInstruction format mode = webtoonMainInstruction) := by
  cases format <;> cases mode <;> refine ⟨?_, ?_, ?_⟩ <;> intros <;>
    first
    | decide
    | simp_all

theorem aspect_instruction_selection_witness :
    ((ComicFormat.webtoon = ComicFormat.page → PageMode.single = PageMode.spread →
      aspectRatioInstruction ComicFormat.webtoon PageMode.single = landscapeAspectInstruction) ∧
    (ComicFormat.webtoon = ComicFormat.page → PageMode.single = PageMode.single →
      aspectRatioInstruction ComicFormat.webtoon PageMode.single = portraitAspectInstruction) ∧
    (ComicFormat.webtoon = ComicFormat.webtoon →
      aspectRatioInstruction ComicFormat.webtoon PageMode.single = portraitAspectInstruction ∧
      mainInstruction ComicFormat.webtoon PageMode.single = webtoonMainInstruction)) :=
  aspect_instruction_selection ComicFormat.webtoon PageMode.single

/-! ### Claim C5: reference-index stability. -/

/-- A `filterMap` that is everywhere `some` of a function of the position equals
mapping that function over the positions. -/
theorem filterMap_eq_range_map {α β : Type} (l : List α) (f : α → Option β) (g : Nat → β)
    (h : ∀ k (hk : k < l.length), f (l.get ⟨k, hk⟩) = some (g k)) :
    l.filterMap f = (List.range l.length).map g := by
  induction l generalizing g with
  | nil => rfl
  | cons x t ih =>
    have h0 : f x = some (g 0) := h 0 (by simp)
    have ht : ∀ k (hk : k < t.length), f (t.get ⟨k, hk⟩) = some (g (k + 1)) := fun k hk =>
      h (k + 1) (by simpa using Nat.succ_lt_succ hk)
    simp only [List.filterMap_cons, h0, List.length_cons, List.range_succ_eq_map,
      List.map_cons, List.map_map, ih (fun k => g (k + 1)) ht]
    rfl

theorem itemToRefNumMap_keys (chars : List Character) (assets : List Asset)
    (scenes : List Scene) :
    (itemToRefNumMap chars assets scenes).map Prod.fst
      = (allAppearingItems chars assets scenes).map entityId := by
  unfold itemToRefNumMap
  rw [List.map_map]
  have hcomp : (Prod.fst ∘ fun p : Nat × (Character ⊕ Asset) => (entityId p.2, p.1 + 1))
      = entityId ∘ Prod.snd := rfl
  rw [hcomp, ← List.map_map, List.enum_map_snd]

theorem allAppearingItems_map_entityId (chars : List Character) (assets : List Asset)
    (scenes : List Scene) :
    (allAppearingItems chars assets scenes).map entityId
      = (appearingCharacters chars scenes).map (fun c => c.characterId)
        ++ (appearingAssets assets scenes).map (fun a => a.assetId) := by
  unfold allAppearingItems
  rw [List.map_append, List.map_map, List.map_map]
  rfl

theorem appearing_ids_nodup (chars : List Character) (assets : List Asset)
    (scenes : List Scene)
    (hc : (chars.map (fun c => c.characterId)).Nodup)
    (ha : (assets.map (fun a => a.assetId)).Nodup)
    (hd : ∀ c ∈ chars, ∀ a ∈ assets, c.characterId ≠ a.assetId) :
    ((allAppearingItems chars assets scenes).map entityId).Nodup := by
  rw [allAppearingItems_map_entityId, List.nodup_append]
  refine ⟨?_, ?_, ?_⟩
  · exact List.Nodup.sublist ((List.filter_sublist chars).map _) hc
  · exact List.Nodup.sublist ((List.filter_sublist assets).map _) ha
  · intro x hx hx'
    simp only [List.mem_map] at hx hx'
    obtain ⟨c, hcmem, rfl⟩ := hx
    obtain ⟨a, hamem, haeq⟩ := hx'
    exact hd c (List.mem_of_mem_filter hcmem) a (List.mem_of_mem_filter hamem) haeq.symm

theorem refNumOf_getElem (chars : List Character) (assets : List Asset) (scenes : List Scene)
    (hnd : ((allAppearingItems chars assets scenes).map entityId).Nodup)
    (k : Nat) (hk : k < (allAppearingItems chars assets scenes).length) :
    refNumOf chars assets scenes
        (entityId ((allAppearingItems chars assets scenes).get ⟨k, hk⟩))
      = some (k + 1) := by
  apply jsMapGet_of_nodup_mem
  · rw [itemToRefNumMap_keys]
    exact hnd
  · have hmem : (itemToRefNumMap chars assets scenes)[k]?
        = some (entityId ((allAppearingItems chars assets scenes).get ⟨k, hk⟩), k + 1) := by
      unfold itemToRefNumMap
      rw [List.getElem?_map, List.getElem?_enum, List.getElem?_eq_getElem hk]
      rfl
    exact List.getElem?_mem hmem

theorem refNumOf_appearing_char (chars : List Character) (assets : List Asset)
    (scenes : List Scene)
    (hnd : ((allAppearingItems chars assets scenes).map entityId).Nodup)
    (k : Nat) (hk : k < (appearingCharacters chars scenes).length) :
    refNumOf chars assets scenes
        ((appearingCharacters chars scenes).get ⟨k, hk⟩).characterId
      = some (k + 1) := by
  have hk' : k < (allAppearingItems chars assets scenes).length := by
    simp only [allAppearingItems, List.length_append, List.length_map]
    omega
  have hitem : (allAppearingItems chars assets scenes).get ⟨k, hk'⟩
      = Sum.inl ((appearingCharacters chars scenes).get ⟨k, hk⟩) := by
    unfold allAppearingItems
    rw [List.get_eq_getElem, List.getElem_append_left (by simpa using hk),
      List.getElem_map]
    rfl
  have hnum := refNumOf_getElem chars assets scenes hnd k hk'
  rw [hitem] at hnum
  exact hnum

theorem refNumOf_appearing_asset (chars : List Character) (assets : List Asset)
    (scenes : List Scene)
    (hnd : ((allAppearingItems chars assets scenes).map entityId).Nodup)
    (k : Nat) (hk : k < (appearingAssets assets scenes).length) :
    refNumOf chars assets scenes
        ((appearingAssets assets scenes).get ⟨k, hk⟩).assetId
      = some ((appearingCharacters chars scenes).length + k + 1) := by
  have hk' : (appearingCharacters chars scenes).length + k
      < (allAppearingItems chars assets scenes).length := by
    simp only [allAppearingItems, List.length_append, List.length_map]
    omega
  have hitem : (allAppearingItems chars assets scenes).get ⟨_, hk'⟩
      = Sum.inr ((appearingAssets assets scenes).get ⟨k, hk⟩) := by
    unfold allAppearingItems
    rw [List.get_eq_getElem,
      List.getElem_append_right (by simp only [List.length_map]; omega)]
    simp only [List.length_map, Nat.add_sub_cancel_left, List.getElem_map]
    rfl
  have hnum := refNumOf_getElem chars assets scenes hnd _ hk'
  rw [hitem] at hnum
  exact hnum

/-- Claim C5: in the Prompt Compiler's reference manifest, every appearing
character receives a 1-based index at most the number of appearing characters,
every appearing asset an index strictly above it (so all character indices lie
below all asset indices); along registry order the indices within each kind are
strictly increasing; and an entity assigned to no scene receives no index (its
id is absent from `itemToRefNumMap`). Hypotheses: ids are unique within each
kind and the two kinds' id sets do not collide (otherwise the shared `Map` key
would alias two entities). -/
theorem refIndex_stability (chars : List Character) (assets : List Asset)
    (scenes : List Scene)
    (hc : (chars.map (fun c => c.characterId)).Nodup)
    (ha : (assets.map (fun a => a.assetId)).Nodup)
    (hd : ∀ c ∈ chars, ∀ a ∈ assets, c.characterId ≠ a.assetId) :
    (∀ c ∈ appearingCharacters chars scenes,
      ∃ m, refNumOf chars assets scenes c.characterId = some m ∧ 1 ≤ m ∧
        m ≤ (appearingCharacters chars scenes).length) ∧
    (∀ a ∈ appearingAssets assets scenes,
      ∃ n, refNumOf chars assets scenes a.assetId = some n ∧
        (appearingCharacters chars scenes).length < n) ∧
    (∀ c ∈ appearingCharacters chars scenes, ∀ a ∈ appearingAssets assets scenes,
      ∀ m n, refNumOf chars assets scenes c.characterId = some m →
        refNumOf chars assets scenes a.assetId = some n → m < n) ∧
    List.Chain' (· < ·) ((appearingCharacters chars scenes).filterMap
      (fun c => refNumOf chars assets scenes c.characterId)) ∧
    List.Chain' (· < ·) ((appearingAssets assets scenes).filterMap
      (fun a => refNumOf chars assets scenes a.assetId)) ∧
    (∀ c ∈ chars, c.characterId ∉ scenes.flatMap (fun s => s.characterIds) →
      refNumOf chars assets scenes c.characterId = none) ∧
    (∀ a ∈ assets, a.assetId ∉ scenes.flatMap (fun s => s.assetIds) →
      refNumOf chars assets scenes a.assetId = none) := by
  have hnd := appearing_ids_nodup chars assets scenes hc ha hd
  have hcharNum : ∀ c ∈ appearingCharacters chars scenes,
      ∃ k, ∃ hk : k < (appearingCharacters chars scenes).length,
        (appearingCharacters chars scenes).get ⟨k, hk⟩ = c ∧
        refNumOf chars assets scenes c.characterId = some (k + 1) := by
    intro c hcmem
    obtain ⟨k, hk, hck⟩ := List.mem_iff_getElem.mp hcmem
    refine ⟨k, hk, hck, ?_⟩
    have := refNumOf_appearing_char chars assets scenes hnd k hk
    rwa [show (appearingCharacters chars scenes).get ⟨k, hk⟩ = c from hck] at this
  have hassetNum : ∀ a ∈ appearingAssets assets scenes,
      ∃ k, ∃ hk : k < (appearingAssets assets scenes).length,
        (appearingAssets assets scenes).get ⟨k, hk⟩ = a ∧
        refNumOf chars assets scenes a.assetId
          = some ((appearingCharacters chars scenes).length + k + 1) := by
    intro a hamem
    obtain ⟨k, hk, hak⟩ := List.mem_iff_getElem.mp hamem
    refine ⟨k, hk, hak, ?_⟩
    have := refNumOf_appearing_asset chars assets scenes hnd k hk
    rwa [show (appearingAssets assets scenes).get ⟨k, hk⟩ = a from hak] at this
  refine ⟨?_, ?_, ?_, ?_, ?_, ?_, ?_⟩
  · intro c hcmem
    obtain ⟨k, hk, -, hnum⟩ := hcharNum c hcmem
    exact ⟨k + 1, hnum, by omega, by omega⟩
  · intro a hamem
    obtain ⟨k, hk, -, hnum⟩ := hassetNum a hamem
    exact ⟨(appearingCharacters chars scenes).length + k + 1, hnum, by omega⟩
  · intro c hcmem a hamem m n hm hn
    obtain ⟨kc, hkc, -, hnumc⟩ := hcharNum c hcmem
    obtain ⟨ka, hka, -, hnuma⟩ := hassetNum a hamem
    have hmeq : m = kc + 1 := (Option.some.inj (hnumc.symm.trans hm)).symm
    have hneq : n = (appearingCharacters chars scenes).length + ka + 1 :=
      (Option.some.inj (hnuma.symm.trans hn)).symm
    omega
  · rw [filterMap_eq_range_map (appearingCharacters chars scenes)
      (fun c => refNumOf chars assets scenes c.characterId) (fun k => k + 1)
      (fun k hk => refNumOf_appearing_char chars assets scenes hnd k hk)]
    refine List.Pairwise.chain' ?_
    exact List.Pairwise.map _ (fun a b h => by omega) (List.pairwise_lt_range _)
  · rw [filterMap_eq_range_map (appearingAssets assets scenes)
      (fun a => refNumOf chars assets scenes a.assetId)
      (fun k => (appearingCharacters chars scenes).length + k + 1)
      (fun k hk => refNumOf_appearing_asset chars assets scenes hnd k hk)]
    refine List.Pairwise.chain' ?_
    exact List.Pairwise.map _ (fun a b h => by omega) (List.pairwise_lt_range _)
  · intro c hcmem hnotin
    apply jsMapGet_eq_none_of_not_mem
    intro p hp
    simp only [itemToRefNumMap, List.mem_map] at hp
    obtain ⟨q, hq, rfl⟩ := hp
    have hqmem : q.2 ∈ allAppearingItems chars assets scenes := by
      rw [List.mem_enum_iff_getElem?] at hq
      exact List.getElem?_mem hq
    simp only [allAppearingItems, List.mem_append, List.mem_map] at hqmem
    rcases hqmem with ⟨c', hc', heq⟩ | ⟨a', ha', heq⟩
    · rw [← heq]
      simp only [entityId, ne_eq]
      intro hceq
      simp only [appearingCharacters, List.mem_filter] at hc'
      have hc'' : c'.characterId ∈ scenes.flatMap (fun s => s.characterIds) := by
        simpa using hc'.2
      exact hnotin (hceq ▸ hc'')
    · rw [← heq]
      simp only [entityId, ne_eq]
      intro haeq
      exact hd c hcmem a' (List.mem_of_mem_filter ha') haeq.symm
  · intro a hamem hnotin
    apply jsMapGet_eq_none_of_not_mem
    intro p hp
    simp only [itemToRefNumMap, List.mem_map] at hp
    obtain ⟨q, hq, rfl⟩ := hp
    have hqmem : q.2 ∈ allAppearingItems chars assets scenes := by
      rw [List.mem_enum_iff_getElem?] at hq
      exact List.getElem?_mem hq
    simp only [allAppearingItems, List.mem_append, List.mem_map] at hqmem
    rcases hqmem with ⟨c', hc', heq⟩ | ⟨a', ha', heq⟩
    · rw [← heq]
      simp only [entityId, ne_eq]
      intro hceq
      exact hd c' (List.mem_of_mem_filter hc') a hamem hceq
    · rw [← heq]
      simp only [entityId, ne_eq]
      intro haeq
      simp only [appearingAssets, List.mem_filter] at ha'
      have ha'' : a'.assetId ∈ scenes.flatMap (fun s => s.assetIds) := by
        simpa using ha'.2
      exact hnotin (haeq ▸ ha'')

/-- An asset for the reference-index witness. -/
def swordAsset : Asset :=
  { assetId := "asset-S", name := "Sword", referenceImageUrl := "uS",
    corePrompt := "blade" }

/-- One scene assigning character `chB` and asset `swordAsset`; `chA` appears in
no scene. -/
def refScenes : List Scene :=
  [{ sceneId := "r0", description := "fight", cameraShot := "全景",
     characterIds := ["char-B"], assetIds := ["asset-S"] }]

theorem refIndex_stability_witness :
    (([chA, chB].map (fun c => c.characterId)).Nodup ∧
     ([swordAsset].map (fun a => a.assetId)).Nodup ∧
     (∀ c ∈ [chA, chB], ∀ a ∈ [swordAsset], c.characterId ≠ a.assetId)) ∧
    ((∀ c ∈ appearingCharacters [chA, chB] refScenes,
      ∃ m, refNumOf [chA, chB] [swordAsset] refScenes c.characterId = some m ∧ 1 ≤ m ∧
        m ≤ (appearingCharacters [chA, chB] refScenes).length) ∧
    (∀ a ∈ appearingAssets [swordAsset] refScenes,
      ∃ n, refNumOf [chA, chB] [swordAsset] refScenes a.assetId = some n ∧
        (appearingCharacters [chA, chB] refScenes).length < n) ∧
    (∀ c ∈ appearingCharacters [chA, chB] refScenes,
      ∀ a ∈ appearingAssets [swordAsset] refScenes,
      ∀ m n, refNumOf [chA, chB] [swordAsset] refScenes c.characterId = some m →
        refNumOf [chA, chB] [swordAsset] refScenes a.assetId = some n → m < n) ∧
    List.Chain' (· < ·) ((appearingCharacters [chA, chB] refScenes).filterMap
      (fun c => refNumOf [chA, chB] [swordAsset] refScenes c.characterId)) ∧
    List.Chain' (· < ·) ((appearingAssets [swordAsset] refScenes).filterMap
      (fun a => refNumOf [chA, chB] [swordAsset] refScenes a.assetId)) ∧
    (∀ c ∈ [chA, chB], c.characterId ∉ refScenes.flatMap (fun s => s.characterIds) →
      refNumOf [chA, chB] [swordAsset] refScenes c.characterId = none) ∧
    (∀ a ∈ [swordAsset], a.assetId ∉ refScenes.flatMap (fun s => s.assetIds) →
      refNumOf [chA, chB] [swordAsset] refScenes a.assetId = none)) :=
  ⟨⟨by decide, by decide, by decide⟩,
    refIndex_stability [chA, chB] [swordAsset] refScenes (by decide) (by decide) (by decide)⟩

end Comic
